import Mathlib

/-!
Verification of the dukAnI WhatsApp concierge bot (SeamlAI/dukani).

This file gives a shallow embedding, in Lean 4, of the pure core of the
tool-orchestration pipeline (AgentService), the profile store list operations
(ProfileService) and the web-search client payload construction
(TavilyService).  Remote effects (the Groq chat-completion API, the Tavily
HTTP API, and the on-disk profile store) are modelled as environments of
outcomes: each call site of the source reads one outcome value, mirroring the
single, retry-free invocation in the code.  JavaScript-specific behaviour
(String.prototype.trim, toLowerCase, includes, JSON.parse, truthiness of
values, the logical-or defaulting idiom) is embedded explicitly below.
-/

namespace Dukani

/-! ### JavaScript string primitives -/

/-- Whitespace characters recognised by the JavaScript trim used here
(the common ASCII whitespace set). -/
def jsWhitespace (c : Char) : Bool :=
  c = ' ' || c = '\t' || c = '\n' || c = '\r' || c = '\x0b' || c = '\x0c'

def jsTrimList (cs : List Char) : List Char :=
  ((cs.dropWhile jsWhitespace).reverse.dropWhile jsWhitespace).reverse

/-- Model of JavaScript String.prototype.trim. -/
def jsTrim (s : String) : String :=
  ⟨jsTrimList s.toList⟩

/-- Model of JavaScript String.prototype.toLowerCase (ASCII range; the
keyword cues matched by the code are all ASCII). -/
def jsToLower (s : String) : String :=
  ⟨s.toList.map Char.toLower⟩

/-- needle occurs as a contiguous run somewhere in the list. -/
def hasSubseq (needle : List Char) : List Char → Bool
  | [] => needle.isEmpty
  | c :: rest => needle.isPrefixOf (c :: rest) || hasSubseq needle rest

/-- Model of JavaScript String.prototype.includes. -/
def jsIncludes (hay needle : String) : Bool :=
  hasSubseq needle.toList hay.toList

/-! ### JSON values and JSON.parse

The agent parses model output with JSON.parse.  We embed JSON values as an
inductive type; numbers keep their source lexeme, since no claim inspects a
numeric value. -/

inductive Json where
  | null
  | bool (b : Bool)
  | num (lexeme : String)
  | str (s : String)
  | arr (elems : List Json)
  | obj (fields : List (String × Json))

mutual

/-- Structural equality of JSON values; where the source compares a runtime
value against a string literal with strict equality, this coincides. -/
def Json.beq : Json → Json → Bool
  | .null, .null => true
  | .bool a, .bool b => a == b
  | .num a, .num b => a == b
  | .str a, .str b => a == b
  | .arr a, .arr b => Json.beqList a b
  | .obj a, .obj b => Json.beqFields a b
  | _, _ => false

def Json.beqList : List Json → List Json → Bool
  | [], [] => true
  | a :: as, b :: bs => Json.beq a b && Json.beqList as bs
  | _, _ => false

def Json.beqFields : List (String × Json) → List (String × Json) → Bool
  | [], [] => true
  | (k1, v1) :: as, (k2, v2) :: bs => k1 == k2 && Json.beq v1 v2 && Json.beqFields as bs
  | _, _ => false

end

instance : BEq Json := ⟨Json.beq⟩

def Json.isArr : Json → Bool
  | .arr _ => true
  | _ => false

/-- JSON grammar whitespace (as accepted by JSON.parse). -/
def jsonWs (c : Char) : Bool :=
  c = ' ' || c = '\t' || c = '\n' || c = '\r'

def skipWs (cs : List Char) : List Char :=
  cs.dropWhile jsonWs

def escChar (c : Char) : Option Char :=
  if c = '"' then some '"'
  else if c = '\\' then some '\\'
  else if c = '/' then some '/'
  else if c = 'b' then some '\x08'
  else if c = 'f' then some '\x0c'
  else if c = 'n' then some '\n'
  else if c = 'r' then some '\r'
  else if c = 't' then some '\t'
  else none

def hexVal (c : Char) : Option Nat :=
  if '0' ≤ c ∧ c ≤ '9' then some (c.toNat - '0'.toNat)
  else if 'a' ≤ c ∧ c ≤ 'f' then some (c.toNat - 'a'.toNat + 10)
  else if 'A' ≤ c ∧ c ≤ 'F' then some (c.toNat - 'A'.toNat + 10)
  else none

def hex4 (a b c d : Char) : Option Nat := do
  let va ← hexVal a
  let vb ← hexVal b
  let vc ← hexVal c
  let vd ← hexVal d
  pure (va * 4096 + vb * 256 + vc * 16 + vd)

/-- Body of a JSON string literal, after the opening quote.  Returns the
decoded characters and the rest of the input after the closing quote.
Escaped code units that are not Unicode scalar values collapse to NUL,
a detail no claim depends on. -/
def parseStringBody : List Char → Option (List Char × List Char)
  | [] => none
  | '"' :: rest => some ([], rest)
  | '\\' :: 'u' :: h1 :: h2 :: h3 :: h4 :: rest =>
    match hex4 h1 h2 h3 h4 with
    | some n => (parseStringBody rest).map (fun p => (Char.ofNat n :: p.1, p.2))
    | none => none
  | '\\' :: e :: rest =>
    match escChar e with
    | some c => (parseStringBody rest).map (fun p => (c :: p.1, p.2))
    | none => none
  | c :: rest =>
    if c.toNat < 32 then none
    else (parseStringBody rest).map (fun p => (c :: p.1, p.2))

def digitSpan (cs : List Char) : List Char × List Char :=
  (cs.takeWhile Char.isDigit, cs.dropWhile Char.isDigit)

/-- Integer part of a JSON number (no leading zeros, except a lone 0). -/
def parseIntPart : List Char → Option (List Char × List Char)
  | '0' :: r => some (['0'], r)
  | c :: r =>
    if c.isDigit then
      let (ds, rest) := digitSpan r
      some (c :: ds, rest)
    else none
  | [] => none

def parseFracPart : List Char → Option (List Char × List Char)
  | '.' :: r =>
    match digitSpan r with
    | ([], _) => none
    | (ds, rest) => some ('.' :: ds, rest)
  | cs => some ([], cs)

def parseExpPart : List Char → Option (List Char × List Char)
  | [] => some ([], [])
  | e :: r =>
    if e = 'e' ∨ e = 'E' then
      let (sgn, r1) :=
        match r with
        | '+' :: r2 => (['+'], r2)
        | '-' :: r2 => (['-'], r2)
        | _ => ([], r)
      match digitSpan r1 with
      | ([], _) => none
      | (ds, rest) => some (e :: (sgn ++ ds), rest)
    else some ([], e :: r)

/-- Lexeme of a JSON number. -/
def parseNumberLex (cs : List Char) : Option (List Char × List Char) := do
  let (sign, cs1) :=
    match cs with
    | '-' :: r => (['-'], r)
    | _ => ([], cs)
  let (ip, cs2) ← parseIntPart cs1
  let (fp, cs3) ← parseFracPart cs2
  let (ep, cs4) ← parseExpPart cs3
  pure (sign ++ ip ++ fp ++ ep, cs4)

mutual

/-- Recursive-descent JSON value parser; the fuel argument dominates the
nesting depth and is instantiated generously at the top level. -/
def parseJsonVal : Nat → List Char → Option (Json × List Char)
  | 0, _ => none
  | fuel + 1, cs =>
    match cs with
    | 'n' :: 'u' :: 'l' :: 'l' :: rest => some (.null, rest)
    | 't' :: 'r' :: 'u' :: 'e' :: rest => some (.bool true, rest)
    | 'f' :: 'a' :: 'l' :: 's' :: 'e' :: rest => some (.bool false, rest)
    | '"' :: rest => (parseStringBody rest).map (fun p => (.str ⟨p.1⟩, p.2))
    | '[' :: rest =>
      let r1 := skipWs rest
      match r1 with
      | ']' :: r2 => some (.arr [], r2)
      | _ => (parseArrTail fuel r1).map (fun p => (.arr p.1, p.2))
    | '{' :: rest =>
      let r1 := skipWs rest
      match r1 with
      | '}' :: r2 => some (.obj [], r2)
      | _ => (parseObjTail fuel r1).map (fun p => (.obj p.1, p.2))
    | _ => (parseNumberLex cs).map (fun p => (.num ⟨p.1⟩, p.2))

/-- One or more comma-separated array items followed by a closing bracket. -/
def parseArrTail : Nat → List Char → Option (List Json × List Char)
  | 0, _ => none
  | fuel + 1, cs => do
    let (v, r) ← parseJsonVal fuel cs
    let r1 := skipWs r
    match r1 with
    | ',' :: r2 => do
      let (vs, r3) ← parseArrTail fuel (skipWs r2)
      pure (v :: vs, r3)
    | ']' :: r2 => pure ([v], r2)
    | _ => none

/-- One or more comma-separated object members followed by a closing brace. -/
def parseObjTail : Nat → List Char → Option (List (String × Json) × List Char)
  | 0, _ => none
  | fuel + 1, cs =>
    match cs with
    | '"' :: rest => do
      let (k, r) ← parseStringBody rest
      let r1 := skipWs r
      match r1 with
      | ':' :: r2 => do
        let (v, r3) ← parseJsonVal fuel (skipWs r2)
        let r4 := skipWs r3
        match r4 with
        | ',' :: r5 => do
          let (fs, r6) ← parseObjTail fuel (skipWs r5)
          pure ((⟨k⟩, v) :: fs, r6)
        | '}' :: r5 => pure ([(⟨k⟩, v)], r5)
        | _ => none
      | _ => none
    | _ => none

end

/-- Model of JSON.parse: none models a thrown SyntaxError.  The input must
be a single JSON value surrounded only by whitespace. -/
def jsonParse (s : String) : Option Json :=
  let cs := skipWs s.toList
  match parseJsonVal (2 * cs.length + 2) cs with
  | some (v, rest) => if skipWs rest = [] then some v else none
  | none => none

/-! ### JavaScript value semantics used by the agent -/

/-- Mantissa characters of a number lexeme (everything before the exponent). -/
def numLexMantissa (lex : String) : List Char :=
  lex.toList.takeWhile (fun c => c ≠ 'e' ∧ c ≠ 'E')

def numLexIsZero (lex : String) : Bool :=
  (numLexMantissa lex).all (fun c => !c.isDigit || c = '0')

/-- JavaScript truthiness of a JSON-shaped runtime value. -/
def jsTruthy : Json → Bool
  | .null => false
  | .bool b => b
  | .num lex => !numLexIsZero lex
  | .str s => s ≠ ""
  | .arr _ => true
  | .obj _ => true

/-- Truthiness where none models undefined. -/
def jsTruthyOpt : Option Json → Bool
  | none => false
  | some v => jsTruthy v

/-- Property access obj.k (none models undefined); for objects with
duplicate keys JSON.parse keeps the last value. -/
def jsGet (v : Json) (k : String) : Option Json :=
  match v with
  | .obj fields => (fields.reverse.find? (fun p => p.1 = k)).map (fun p => p.2)
  | _ => none

/-- The JavaScript a || b idiom on possibly-undefined values. -/
def jsOrOpt (a b : Option Json) : Option Json :=
  if jsTruthyOpt a then a else b

def jsOrBool (o : Option Bool) (d : Bool) : Bool :=
  match o with
  | some b => if b then b else d
  | none => d

def jsOrNat (o : Option Nat) (d : Nat) : Nat :=
  match o with
  | some n => if n = 0 then d else n
  | none => d

def jsOrStr (o : Option String) (d : String) : String :=
  match o with
  | some s => if s = "" then d else s
  | none => d

def jsOrRat (a d : ℚ) : ℚ :=
  if a = 0 then d else a

mutual

/-- JavaScript string coercion of a runtime value, as used in template
literals (number lexemes are kept un-normalised; no claim inspects them). -/
def jsToDisplay : Json → String
  | .null => "null"
  | .bool b => if b then "true" else "false"
  | .num lex => lex
  | .str s => s
  | .arr es => String.intercalate "," (jsToDisplayList es)
  | .obj _ => "[object Object]"

def jsToDisplayList : List Json → List String
  | [] => []
  | v :: vs => jsToDisplay v :: jsToDisplayList vs

end

def jsToDisplayOpt : Option Json → String
  | none => "undefined"
  | some v => jsToDisplay v

/-- First index of a character in a list (String.prototype.indexOf). -/
def firstIdxOf (c : Char) : List Char → Option Nat
  | [] => none
  | d :: rest => if d = c then some 0 else (firstIdxOf c rest).map (· + 1)

/-- Last index of a character (String.prototype.lastIndexOf). -/
def lastIdxOf (c : Char) (cs : List Char) : Option Nat :=
  (firstIdxOf c cs.reverse).map (fun k => cs.length - 1 - k)

/-! ### TavilyService (src/tavily/tavily.service.ts)

The search client builds a JSON payload for the remote API.  The api_key
field (configuration, not request data) is omitted.  The fetch layer and
HTTP/body handling are the remote boundary, modelled as a function from the
outgoing payload to an outcome; an error outcome covers network failures,
non-ok HTTP statuses and body decoding failures, with an arbitrary message. -/

structure TavilySearchRequest where
  query : String
  searchDepth : Option String := none
  includeImages : Option Bool := none
  includeAnswer : Option Bool := none
  maxResults : Option Nat := none
  includeDomains : Option (List String) := none
  excludeDomains : Option (List String) := none

structure TavilyPayload where
  query : String
  search_depth : String
  include_images : Bool
  include_answer : Bool
  max_results : Nat
  include_domains : List String
  exclude_domains : List String

/-- Payload construction of TavilyService.search; none models the validation
throw for a missing/empty/whitespace query. -/
def tavilyPayload (request : TavilySearchRequest) : Option TavilyPayload :=
  if jsTrim request.query = "" then none
  else some
    { query := jsTrim request.query
      search_depth := jsOrStr request.searchDepth "basic"
      include_images := jsOrBool request.includeImages false
      include_answer := jsOrBool request.includeAnswer true
      max_results := jsOrNat request.maxResults 5
      include_domains := request.includeDomains.getD []
      exclude_domains := request.excludeDomains.getD [] }

/-- Outcome of the remote fetch for a given payload: ok carries the parsed
response body. -/
def TavilyFetch : Type := TavilyPayload → Except String Json

/-- The catch of TavilyService.search: rethrow with the fixed prefix. -/
def wrapTavily (raw : Except String Json) : Except String Json :=
  match raw with
  | Except.ok body => Except.ok body
  | Except.error m => Except.error ("Tavily search error: " ++ m)

/-- TavilyService.search.  The whole body sits in a try/catch whose catch
rethrows with the fixed prefix, so every failure message is wrapped. -/
def tavilySearch (fetch : TavilyFetch) (request : TavilySearchRequest) :
    Except String Json :=
  wrapTavily
    (match tavilyPayload request with
     | none => Except.error "Search query is required and cannot be empty"
     | some p => fetch p)

/-- TavilyService.searchHotels; arguments arrive as arbitrary runtime values
(none models undefined). -/
def searchHotels (fetch : TavilyFetch) (location checkIn checkOut : Option Json) :
    Except String Json :=
  match location with
  | some (Json.str s) =>
    if jsTrim s = "" then Except.error "Location is required for hotel search"
    else
      let query := "hotels in " ++ jsTrim s
        ++ (match checkIn with
            | some v => if jsTruthy v then " check-in " ++ jsToDisplay v else ""
            | none => "")
        ++ (match checkOut with
            | some v => if jsTruthy v then " check-out " ++ jsToDisplay v else ""
            | none => "")
      tavilySearch fetch
        { query := query
          searchDepth := some "advanced"
          maxResults := some 10
          includeDomains := some ["booking.com", "hotels.com", "expedia.com", "airbnb.com"] }
  | _ => Except.error "Location is required for hotel search"

/-- TavilyService.searchFlights. -/
def searchFlights (fetch : TavilyFetch) (origin destination departureDate : Option Json) :
    Except String Json :=
  match origin with
  | some (Json.str o) =>
    if jsTrim o = "" then Except.error "Origin is required for flight search"
    else
      match destination with
      | some (Json.str d) =>
        if jsTrim d = "" then Except.error "Destination is required for flight search"
        else
          let query := "flights from " ++ jsTrim o ++ " to " ++ jsTrim d
            ++ (match departureDate with
                | some v => if jsTruthy v then " on " ++ jsToDisplay v else ""
                | none => "")
          tavilySearch fetch
            { query := query
              searchDepth := some "advanced"
              maxResults := some 10
              includeDomains := some ["kayak.com", "expedia.com", "skyscanner.com", "google.com"] }
      | _ => Except.error "Destination is required for flight search"
  | _ => Except.error "Origin is required for flight search"

/-- The cuisine fragment of the restaurant query: the expression
cuisine && cuisine.trim() followed by the conditional prefix; calling .trim()
on a truthy non-string cuisine is a TypeError in the source, surfacing here
as an error value. -/
def cuisinePrefixResult (cuisine : Option Json) : Except String String :=
  match cuisine with
  | some (Json.str c) => Except.ok (if jsTrim c = "" then "" else jsTrim c ++ " ")
  | some v =>
    if jsTruthy v then Except.error "cuisine.trim is not a function" else Except.ok ""
  | none => Except.ok ""

/-- The budget fragment of the product query, same pattern as the cuisine. -/
def budgetSuffixResult (budget : Option Json) : Except String String :=
  match budget with
  | some (Json.str b) => Except.ok (if jsTrim b = "" then "" else " under " ++ jsTrim b)
  | some v =>
    if jsTruthy v then Except.error "budget.trim is not a function" else Except.ok ""
  | none => Except.ok ""

/-- TavilyService.searchRestaurants. -/
def searchRestaurants (fetch : TavilyFetch) (location cuisine : Option Json) :
    Except String Json :=
  match location with
  | some (Json.str s) =>
    if jsTrim s = "" then Except.error "Location is required for restaurant search"
    else
      match cuisinePrefixResult cuisine with
      | Except.error e => Except.error e
      | Except.ok p =>
        tavilySearch fetch
          { query := p ++ "restaurants in " ++ jsTrim s
            searchDepth := some "basic"
            maxResults := some 8
            includeDomains := some ["yelp.com", "tripadvisor.com", "zomato.com", "opentable.com"] }
  | _ => Except.error "Location is required for restaurant search"

/-- TavilyService.searchProducts. -/
def searchProducts (fetch : TavilyFetch) (productName budget : Option Json) :
    Except String Json :=
  match productName with
  | some (Json.str s) =>
    if jsTrim s = "" then Except.error "Product name is required for product search"
    else
      match budgetSuffixResult budget with
      | Except.error e => Except.error e
      | Except.ok u =>
        tavilySearch fetch
          { query := jsTrim s ++ u
            searchDepth := some "basic"
            maxResults := some 10
            includeDomains := some ["amazon.com", "ebay.com", "walmart.com", "target.com"] }
  | _ => Except.error "Product name is required for product search"

/-! ### ProfileService (src/profile/profile.service.ts): pure record core

The on-disk JSON round trip is the storage boundary; the list manipulation
below is the code of addConversationEntry and addFavorite verbatim. -/

structure ConversationEntry where
  timestamp : Nat
  userMessage : String
  botResponse : String
deriving DecidableEq

/-- Last n elements of a list, as Array.prototype.slice(-n) on a list longer
than n. -/
def takeLast (n : Nat) (l : List α) : List α :=
  l.drop (l.length - n)

/-- ProfileService.addConversationEntry: push, then keep only the last 50
entries. -/
def addConversationEntryPure (history : List ConversationEntry)
    (e : ConversationEntry) : List ConversationEntry :=
  let h := history ++ [e]
  if h.length > 50 then takeLast 50 h else h

inductive FavoriteType where
  | restaurants
  | hotels
  | destinations
deriving DecidableEq

/-- The favorites map of a profile; none models an absent list. -/
structure Favorites where
  restaurants : Option (List String) := none
  hotels : Option (List String) := none
  destinations : Option (List String) := none
deriving DecidableEq

/-- Favorites of a freshly created profile (empty object). -/
def emptyFavorites : Favorites := {}

def Favorites.get (f : Favorites) : FavoriteType → Option (List String)
  | .restaurants => f.restaurants
  | .hotels => f.hotels
  | .destinations => f.destinations

def Favorites.set (f : Favorites) : FavoriteType → Option (List String) → Favorites
  | .restaurants, l => { f with restaurants := l }
  | .hotels, l => { f with hotels := l }
  | .destinations, l => { f with destinations := l }

/-- ProfileService.addFavorite: default an absent list to [], then append the
item only when not already included (case-sensitive). -/
def addFavoritePure (f : Favorites) (type : FavoriteType) (item : String) : Favorites :=
  let l := (f.get type).getD []
  let l' := if item ∈ l then l else l ++ [item]
  f.set type (some l')

/-! ### AgentService (src/agent/agent.service.ts)

Remote collaborators are an environment of call-site outcomes: the three
completion-service prompts (tool selection, parameter extraction, synthesis),
the Tavily fetch, and the profile-store operations.  Each call site of the
source reads its outcome exactly once; the source contains no loops or
retries around any of these calls. -/

structure AgentEnv where
  /-- Completion outcome for the tool-selection prompt (determineRequiredTools). -/
  selection : Except String String
  /-- Completion outcome for the parameter-extraction prompt (generateSearchParams). -/
  extraction : Except String String
  /-- Completion outcome for the synthesis prompt (generateFinalResponse). -/
  synthesis : Except String String
  /-- Tavily fetch outcome per payload. -/
  fetch : TavilyFetch
  /-- profileService.getConversationContext(userId, 3). -/
  getConversationContext : Except String String
  /-- profileService.getProfile(userId); ok carries the profile object. -/
  getProfile : Except String Json
  /-- profileService.getUserSummary inside the profile tool (action get). -/
  getUserSummaryTool : Except String String
  /-- profileService.updateProfile inside the profile tool (action update). -/
  updateProfile : Option Json → Except String Json
  /-- profileService.addFavorite inside the profile tool (action add_favorite). -/
  addFavoriteCall : Option Json → Option Json → Except String Unit
  /-- profileService.getUserSummary inside the synthesis prompt template. -/
  getUserSummarySynth : Except String String
  /-- profileService.addConversationEntry after synthesis. -/
  addConversationEntry : Except String Unit

structure AgentContext where
  userId : String
  userMessage : String
  conversationHistory : Option String := none
  userProfile : Option Json := none

structure AgentResponse where
  message : String
  toolsUsed : List Json
  confidence : ℚ

/-- AgentService.determineRequiredTools: parse the trimmed completion
response as JSON; a thrown error (completion failure or parse failure) falls
back to the default list; a parsed non-array yields the empty list. -/
def determineRequiredTools (selection : Except String String) : List Json :=
  match selection with
  | Except.error _ => [Json.str "profile", Json.str "search"]
  | Except.ok response =>
    match jsonParse (jsTrim response) with
    | none => [Json.str "profile", Json.str "search"]
    | some (Json.arr tools) => tools
    | some _ => []

/-- Keyword fallback of generateSearchParams: first matching cue group wins,
checked in the fixed order of the source. -/
def heuristicCategory (lower : String) : String :=
  if jsIncludes lower "hotel" || jsIncludes lower "stay" then "hotels"
  else if jsIncludes lower "flight" || jsIncludes lower "fly" then "flights"
  else if jsIncludes lower "restaurant" || jsIncludes lower "food"
      || jsIncludes lower "pizza" || jsIncludes lower "eat" then "restaurants"
  else if jsIncludes lower "buy" || jsIncludes lower "shop"
      || jsIncludes lower "product" then "products"
  else "general"

/-- The try block of generateSearchParams: completion call, brace-substring
extraction, JSON.parse, and the non-empty query validation. -/
def paramsAttempt (extraction : Except String String) : Except String Json := do
  let response ← extraction
  let clean := jsTrim response
  let cs := clean.toList
  let jsonStr : String :=
    match firstIdxOf '{' cs, lastIdxOf '}' cs with
    | some i, some j => if i < j then ⟨(cs.drop i).take (j + 1 - i)⟩ else clean
    | _, _ => clean
  match jsonParse jsonStr with
  | none => Except.error "JSON parse failure"
  | some p =>
    match jsGet p "query" with
    | some (Json.str q) =>
      if jsTrim q = "" then Except.error "No valid query in parsed parameters"
      else pure p
    | _ => Except.error "No valid query in parsed parameters"

structure SearchParamsOut where
  params : Json
  /-- Whether the code reached the completion-service call. -/
  remoteCalled : Bool

/-- AgentService.generateSearchParams. -/
def generateSearchParams (extraction : Except String String) (userMessage : String) :
    SearchParamsOut :=
  if jsTrim userMessage = "" then
    { params := Json.obj [("query", Json.str "general search"), ("category", Json.str "general")]
      remoteCalled := false }
  else
    match paramsAttempt extraction with
    | Except.ok p => { params := p, remoteCalled := true }
    | Except.error _ =>
      let t := jsTrim userMessage
      let lower := jsToLower t
      { params := Json.obj [("query", Json.str t), ("category", Json.str (heuristicCategory lower))]
        remoteCalled := true }

/-- AgentService.executeSearchTool: query validation, then category dispatch
to the Tavily query builders. -/
def executeSearchTool (fetch : TavilyFetch) (params : Json) : Except String Json :=
  match jsGet params "query" with
  | some (Json.str q) =>
    if jsTrim q = "" then Except.error "Search query is required and cannot be empty"
    else
      match jsGet params "category" with
      | some (Json.str "hotels") =>
        searchHotels fetch (jsOrOpt (jsGet params "location") (jsGet params "destination"))
          (jsGet params "date") none
      | some (Json.str "flights") =>
        searchFlights fetch (jsGet params "origin") (jsGet params "destination")
          (jsGet params "date")
      | some (Json.str "restaurants") =>
        searchRestaurants fetch (jsGet params "location") (jsGet params "cuisine")
      | some (Json.str "products") =>
        searchProducts fetch (some (Json.str q)) (jsGet params "budget")
      | _ => tavilySearch fetch { query := q, maxResults := some 5 }
  | _ => Except.error "Search query is required and cannot be empty"

inductive ToolValue where
  | searchResp (body : Json)
  | text (s : String)
  | profileObj (p : Json)
  | favoriteAck (message : String)

/-- One entry of the accumulated tool-result map: a structured success value,
or the error record stored by the catch in executeToolsInSequence (the
fallbackMessage field is present only for the search tool). -/
inductive ToolEntry where
  | success (v : ToolValue)
  | failure (error : String) (fallbackMessage : Option String)

/-- AgentService.executeProfileTool. -/
def executeProfileTool (env : AgentEnv) (params : Json) : Except String ToolValue :=
  match jsGet params "action" with
  | some (Json.str "get") => (env.getUserSummaryTool).map ToolValue.text
  | some (Json.str "update") => (env.updateProfile (jsGet params "updates")).map ToolValue.profileObj
  | some (Json.str "add_favorite") => do
    let _ ← env.addFavoriteCall (jsGet params "favoriteType") (jsGet params "favoriteItem")
    pure (ToolValue.favoriteAck ("Added " ++ jsToDisplayOpt (jsGet params "favoriteItem")
      ++ " to " ++ jsToDisplayOpt (jsGet params "favoriteType")))
  | a => Except.error ("Unknown profile action: " ++ jsToDisplayOpt a)

/-- The fixed degraded-service apology stored with a failed search tool. -/
def searchFallbackMessage : String :=
  "I\x27m having trouble searching right now. Please try rephrasing your request or try again later."

/-- The accumulated name-to-result map (a JS Map: insertion-ordered,
first-occurrence keyed). -/
abbrev ResultsMap : Type := List (Json × ToolEntry)

def mapGet (m : ResultsMap) (k : Json) : Option ToolEntry :=
  (m.find? (fun p => Json.beq p.1 k)).map (fun p => p.2)

/-- Map.set: update the value in place for an existing key (keeping the
stored key and its position), otherwise append a fresh entry. -/
def mapSet : ResultsMap → Json → ToolEntry → ResultsMap
  | [], k, v => [(k, v)]
  | (k', v') :: rest, k, v =>
    if Json.beq k' k then (k', v) :: rest else (k', v') :: mapSet rest k v

/-- The registry holds exactly the two tools installed at startup. -/
def toolRegistryHas (toolName : Json) : Bool :=
  Json.beq toolName (Json.str "search") || Json.beq toolName (Json.str "profile")

/-- One iteration of the loop in AgentService.executeToolsInSequence: an
unknown name is skipped with a warning; an executor failure is caught and
stored, with the pre-written fallback message for the search tool only. -/
def execOneTool (env : AgentEnv) (ctx : AgentContext) (results : ResultsMap)
    (toolName : Json) : ResultsMap :=
  if Json.beq toolName (Json.str "search") then
    match executeSearchTool env.fetch
        (generateSearchParams env.extraction ctx.userMessage).params with
    | Except.ok body =>
      mapSet results (Json.str "search") (ToolEntry.success (ToolValue.searchResp body))
    | Except.error e =>
      mapSet results (Json.str "search") (ToolEntry.failure e (some searchFallbackMessage))
  else if Json.beq toolName (Json.str "profile") then
    match executeProfileTool env (Json.obj [("action", Json.str "get")]) with
    | Except.ok v => mapSet results (Json.str "profile") (ToolEntry.success v)
    | Except.error e => mapSet results (Json.str "profile") (ToolEntry.failure e none)
  else results

/-- AgentService.executeToolsInSequence. -/
def executeToolsInSequence (env : AgentEnv) (ctx : AgentContext) (tools : List Json) :
    ResultsMap :=
  tools.foldl (execOneTool env ctx) []

/-- The generic apology of the synthesis failure floor. -/
def apologyMessage : String :=
  "I\x27m sorry, I\x27m having trouble processing your request right now. Please try again in a moment. ðŸ¤–"

/-- Text appended to the fallback message on the degraded path (menu prompt);
byte-for-byte the template of the source. -/
def degradedMenuText : String :=
  " \n\nI can still help you with general information or recommendations based on common preferences. What specific type of assistance are you looking for? \n\nðŸ¨ Hotels\nðŸ½ï¸ Restaurants  \nâœˆï¸ Flights\nðŸ›ï¸ Products\n\nPlease try asking your question in a different way, and I\x27ll do my best to help!"

def defaultSearchTroubleMessage : String :=
  "I\x27m having trouble with my search capabilities right now."

/-- The degraded-path check of generateFinalResponse: the search entry
exists and its error field is truthy. -/
def hasTruthySearchError (toolResults : ResultsMap) : Bool :=
  match mapGet toolResults (Json.str "search") with
  | some (ToolEntry.failure e _) => e ≠ ""
  | _ => false

/-- The degraded response object. -/
def degradedResponse (toolResults : ResultsMap) (fallbackMessage : Option String) :
    AgentResponse :=
  { message := jsOrStr fallbackMessage defaultSearchTroubleMessage ++ degradedMenuText
    toolsUsed := toolResults.map (fun p => p.1)
    confidence := 0.3 }

/-- The normal synthesis path: the prompt template evaluates
profileService.getUserSummary when a profile is present (a failure there
escapes generateFinalResponse), then the single completion call decides
between the success response and the fixed apology floor. -/
def normalSynthesis (env : AgentEnv) (ctx : AgentContext) (toolResults : ResultsMap) :
    Except String AgentResponse :=
  match (if jsTruthyOpt ctx.userProfile then env.getUserSummarySynth
         else Except.ok "New user") with
  | Except.error e => Except.error e
  | Except.ok _profileSummary =>
    match env.synthesis with
    | Except.ok response =>
      Except.ok { message := response
                  toolsUsed := toolResults.map (fun p => p.1)
                  confidence := 0.85 }
    | Except.error _ =>
      Except.ok { message := apologyMessage
                  toolsUsed := []
                  confidence := 0.1 }

/-- The fallbackMessage field of the search entry (undefined when absent). -/
def searchFallbackOf (toolResults : ResultsMap) : Option String :=
  match mapGet toolResults (Json.str "search") with
  | some (ToolEntry.failure _ fb) => fb
  | _ => none

/-- AgentService.generateFinalResponse: the degraded branch fires when the
search entry exists and its error field is truthy, and returns the degraded
response built from the fallbackMessage of the entry; otherwise the normal
synthesis path runs. -/
def generateFinalResponse (env : AgentEnv) (ctx : AgentContext)
    (toolResults : ResultsMap) : Except String AgentResponse :=
  if hasTruthySearchError toolResults then
    Except.ok (degradedResponse toolResults (searchFallbackOf toolResults))
  else normalSynthesis env ctx toolResults

/-- AgentService.runAgentPrompt.  The outer catch rethrows any escaped error
with a fixed prefix; the returned toolsUsed is the selected tool list, and
the confidence is defaulted through the JavaScript or idiom. -/
def runAgentPrompt (env : AgentEnv) (userMessage userId : String) :
    Except String AgentResponse :=
  match env.getConversationContext with
  | Except.error e => Except.error ("Agent processing failed: " ++ e)
  | Except.ok conversationHistory =>
    match env.getProfile with
    | Except.error e => Except.error ("Agent processing failed: " ++ e)
    | Except.ok userProfile =>
      let ctx : AgentContext :=
        { userId := userId
          userMessage := userMessage
          conversationHistory := some conversationHistory
          userProfile := some userProfile }
      let requiredTools := determineRequiredTools env.selection
      let toolResults := executeToolsInSequence env ctx requiredTools
      match generateFinalResponse env ctx toolResults with
      | Except.error e => Except.error ("Agent processing failed: " ++ e)
      | Except.ok finalResponse =>
        match env.addConversationEntry with
        | Except.error e => Except.error ("Agent processing failed: " ++ e)
        | Except.ok _ =>
          Except.ok { message := finalResponse.message
                      toolsUsed := requiredTools
                      confidence := jsOrRat finalResponse.confidence 0.8 }

/-! Definitions of example data used by concrete witness theorems, and the
invariant predicate for accumulated search entries. -/

def historyFiftyOne : List ConversationEntry :=
  List.replicate 51 { timestamp := 0, userMessage := "hi", botResponse := "hello" }

/-- Replay of a sequence of addFavorite calls against a fresh profile. -/
def applyFavoriteOps (ops : List (FavoriteType × String)) : Favorites :=
  ops.foldl (fun f p => addFavoritePure f p.1 p.2) emptyFavorites

def requestAnswerFalse : TavilySearchRequest :=
  { query := "pizza places in Nairobi", includeAnswer := some false }

/-- Every failure entry stored under the search key by the tool loop carries
a non-empty error message and the pre-written fallback message. -/
def searchEntryOk (m : ResultsMap) : Prop :=
  ∀ e fb, mapGet m (Json.str "search") = some (ToolEntry.failure e fb) →
    e ≠ "" ∧ fb = some searchFallbackMessage

def isOkB {ε α : Type} : Except ε α → Bool
  | Except.ok _ => true
  | Except.error _ => false

/-- A profile store in good health while every remote service fails. -/
def exEnv : AgentEnv :=
  { selection := Except.error "completion service unavailable"
    extraction := Except.error "completion service unavailable"
    synthesis := Except.error "completion service unavailable"
    fetch := fun _ => Except.error "fetch failed"
    getConversationContext := Except.ok "No previous conversation history."
    getProfile := Except.ok (Json.obj [("userId", Json.str "254700000000")])
    getUserSummaryTool := Except.ok "No user information available."
    updateProfile := fun _ => Except.ok (Json.obj [])
    addFavoriteCall := fun _ _ => Except.ok ()
    getUserSummarySynth := Except.ok "No user information available."
    addConversationEntry := Except.ok () }

def exCtx : AgentContext :=
  { userId := "254700000000", userMessage := "find me pizza" }

/-- Same store, but the search backend responds. -/
def envSearchOk : AgentEnv :=
  { exEnv with fetch := fun _ => Except.ok (Json.obj []) }

def ctxHello : AgentContext :=
  { userId := "254700000001", userMessage := "hello there" }

/-! ## Proofs -/

/-! ### Conversation history bound (C3) -/

theorem takeLast_length_le (n : Nat) (l : List α) : (takeLast n l).length ≤ n := by
  unfold takeLast
  rw [List.length_drop]
  omega

theorem takeLast_of_length_le (n : Nat) (l : List α) (h : l.length ≤ n) :
    takeLast n l = l := by
  unfold takeLast
  have : l.length - n = 0 := by omega
  rw [this, List.drop_zero]

theorem takeLast_append_absorb (n : Nat) (l m : List α) :
    takeLast n (takeLast n l ++ m) = takeLast n (l ++ m) := by
  unfold takeLast
  rw [← List.drop_append_of_le_length (show l.length - n ≤ l.length by omega)]
  rw [List.drop_drop]
  congr 1
  simp [List.length_drop, List.length_append]
  omega

theorem addConversationEntryPure_eq_takeLast (h : List ConversationEntry)
    (e : ConversationEntry) :
    addConversationEntryPure h e = takeLast 50 (h ++ [e]) := by
  show (if (h ++ [e]).length > 50 then takeLast 50 (h ++ [e]) else h ++ [e])
    = takeLast 50 (h ++ [e])
  by_cases hlen : (h ++ [e]).length > 50
  · rw [if_pos hlen]
  · rw [if_neg hlen]
    exact (takeLast_of_length_le 50 _ (by omega)).symm

theorem foldl_addConversationEntryPure (es : List ConversationEntry) :
    ∀ h : List ConversationEntry, h.length ≤ 50 →
      es.foldl addConversationEntryPure h = takeLast 50 (h ++ es) := by
  induction es with
  | nil =>
    intro h hh
    rw [List.foldl_nil, List.append_nil, takeLast_of_length_le 50 h hh]
  | cons e es ih =>
    intro h hh
    rw [List.foldl_cons, addConversationEntryPure_eq_takeLast,
      ih _ (takeLast_length_le 50 _), takeLast_append_absorb]
    congr 1
    simp

/-- C3. For every profile, after N ≥ 51 conversation turns appended through
addConversationEntry starting from the empty history of a fresh profile, the
stored history has length exactly 50 and is exactly the most recent 50 turns
in their original order (oldest evicted first); moreover a single append
never leaves the history longer than 50 entries. -/
theorem claim_C3_history_bound (es : List ConversationEntry) (h51 : 51 ≤ es.length) :
    (es.foldl addConversationEntryPure []).length = 50
    ∧ es.foldl addConversationEntryPure [] = es.drop (es.length - 50)
    ∧ ∀ (hist : List ConversationEntry) (e : ConversationEntry),
        (addConversationEntryPure hist e).length ≤ 50 := by
  have hfold := foldl_addConversationEntryPure es [] (by simp)
  rw [List.nil_append] at hfold
  refine ⟨?_, ?_, ?_⟩
  · rw [hfold]
    unfold takeLast
    rw [List.length_drop]
    omega
  · rw [hfold]
    rfl
  · intro hist e
    rw [addConversationEntryPure_eq_takeLast]
    exact takeLast_length_le 50 _

theorem claim_C3_witness :
    51 ≤ historyFiftyOne.length
    ∧ (historyFiftyOne.foldl addConversationEntryPure []).length = 50 :=
  ⟨by simp [historyFiftyOne], (claim_C3_history_bound historyFiftyOne (by simp [historyFiftyOne])).1⟩

/-! ### Favorites deduplication (C7) -/

theorem favorites_get_set_same (f : Favorites) (t : FavoriteType) (x : Option (List String)) :
    (f.set t x).get t = x := by
  cases t <;> rfl

theorem favorites_get_set_ne (f : Favorites) (t t' : FavoriteType)
    (x : Option (List String)) (h : t ≠ t') : (f.set t x).get t' = f.get t' := by
  cases t <;> cases t' <;> first | rfl | exact absurd rfl h

theorem favorites_set_set_same (f : Favorites) (t : FavoriteType)
    (x y : Option (List String)) : (f.set t x).set t y = f.set t y := by
  cases f
  cases t <;> rfl

theorem addFavoritePure_mem (f : Favorites) (t : FavoriteType) (i : String) :
    i ∈ ((addFavoritePure f t i).get t).getD [] := by
  unfold addFavoritePure
  rw [favorites_get_set_same]
  by_cases h : i ∈ (f.get t).getD []
  · simp [h]
  · simp [h]

theorem addFavoritePure_idem (f : Favorites) (t : FavoriteType) (i : String) :
    addFavoritePure (addFavoritePure f t i) t i = addFavoritePure f t i := by
  have hmem : i ∈ (if i ∈ (f.get t).getD [] then (f.get t).getD []
      else (f.get t).getD [] ++ [i]) := by
    by_cases h : i ∈ (f.get t).getD [] <;> simp [h]
  simp only [addFavoritePure, favorites_get_set_same, Option.getD_some,
    favorites_set_set_same, if_pos hmem]

theorem addFavoritePure_nodup (f : Favorites) (t : FavoriteType) (i : String)
    (h : ∀ u, (((f.get u).getD []) : List String).Nodup) :
    ∀ u, ((((addFavoritePure f t i).get u).getD []) : List String).Nodup := by
  intro u
  by_cases hu : t = u
  · subst hu
    unfold addFavoritePure
    rw [favorites_get_set_same]
    by_cases hm : i ∈ (f.get t).getD []
    · simpa [hm] using h t
    · simp only [Option.getD_some, if_neg hm]
      exact (h t).append (List.nodup_singleton i) (by simpa using hm)
  · unfold addFavoritePure
    rw [favorites_get_set_ne _ _ _ _ hu]
    exact h u

theorem foldl_addFavoritePure_nodup (ops : List (FavoriteType × String)) :
    ∀ f : Favorites, (∀ u, (((f.get u).getD []) : List String).Nodup) →
      ∀ u, ((((ops.foldl (fun f p => addFavoritePure f p.1 p.2) f).get u).getD []) : List String).Nodup := by
  induction ops with
  | nil => intro f h u; exact h u
  | cons p ops ih =>
    intro f h u
    exact ih _ (addFavoritePure_nodup f p.1 p.2 h) u

/-- C7. addFavorite is idempotent: adding the same item twice to the same
list of the same profile equals adding it once; a replay of any sequence of
addFavorite calls against a fresh profile leaves every favorites list free of
duplicates (case-sensitive); and after adding an item twice the list holds
exactly one occurrence of it. -/
theorem claim_C7_favorites_dedup :
    (∀ (f : Favorites) (t : FavoriteType) (i : String),
      addFavoritePure (addFavoritePure f t i) t i = addFavoritePure f t i)
    ∧ (∀ (ops : List (FavoriteType × String)) (t : FavoriteType),
        ((((applyFavoriteOps ops).get t).getD []) : List String).Nodup)
    ∧ (∀ (ops : List (FavoriteType × String)) (t : FavoriteType) (i : String),
        ((((applyFavoriteOps (ops ++ [(t, i), (t, i)])).get t).getD []) : List String).count i = 1) := by
  have hnodup : ∀ (ops : List (FavoriteType × String)) (t : FavoriteType),
      ((((applyFavoriteOps ops).get t).getD []) : List String).Nodup := by
    intro ops t
    exact foldl_addFavoritePure_nodup ops emptyFavorites
      (by intro u; cases u <;> simp [emptyFavorites, Favorites.get]) t
  refine ⟨addFavoritePure_idem, hnodup, ?_⟩
  intro ops t i
  have heq : applyFavoriteOps (ops ++ [(t, i), (t, i)]) =
      addFavoritePure (applyFavoriteOps ops) t i := by
    unfold applyFavoriteOps
    rw [List.foldl_append]
    simp only [List.foldl_cons, List.foldl_nil]
    exact addFavoritePure_idem _ t i
  rw [heq]
  exact List.count_eq_one_of_mem
    (addFavoritePure_nodup _ t i (fun u => hnodup ops u) t)
    (addFavoritePure_mem _ t i)

/-! ### Search payload always asks for an answer (C10) -/

/-- C10. Every payload the search client actually sends carries
include_answer = true: the defaulting expression request.includeAnswer || true
evaluates to true for every caller-supplied value, including an explicit
false, so a search with include_answer false cannot be issued through this
client. -/
theorem claim_C10_include_answer (request : TavilySearchRequest) (p : TavilyPayload)
    (h : tavilyPayload request = some p) : p.include_answer = true := by
  unfold tavilyPayload at h
  split at h
  · exact absurd h (by simp)
  · have hp : p = { query := jsTrim request.query
                    search_depth := jsOrStr request.searchDepth "basic"
                    include_images := jsOrBool request.includeImages false
                    include_answer := jsOrBool request.includeAnswer true
                    max_results := jsOrNat request.maxResults 5
                    include_domains := request.includeDomains.getD []
                    exclude_domains := request.excludeDomains.getD [] } := by
      cases h
      rfl
    rw [hp]
    show jsOrBool request.includeAnswer true = true
    cases hb : request.includeAnswer with
    | none => rfl
    | some b => cases b <;> rfl

theorem claim_C10_witness :
    tavilyPayload requestAnswerFalse =
      some { query := "pizza places in Nairobi", search_depth := "basic"
             include_images := false, include_answer := true, max_results := 5
             include_domains := [], exclude_domains := [] }
    ∧ TavilyPayload.include_answer
        { query := "pizza places in Nairobi", search_depth := "basic"
          include_images := false, include_answer := true, max_results := 5
          include_domains := [], exclude_domains := [] } = true :=
  ⟨rfl, claim_C10_include_answer requestAnswerFalse _ rfl⟩

/-! ### Tool selection fallback (C1) -/

/-- C1 (counterexample). A completion response that is valid JSON but not an
array — here the number 5 — does not yield the default list: the code
returns the empty list for a parsed non-array. -/
theorem claim_C1_counterexample :
    determineRequiredTools (Except.ok "5") ≠ [Json.str "profile", Json.str "search"] := by
  have h0 : determineRequiredTools (Except.ok "5") = [] := rfl
  rw [h0]
  simp

/-- C1 (amended). The fixed default list [profile, search] is returned when
the completion call fails or when JSON.parse of the trimmed response throws;
but a response that parses successfully to a non-array JSON value yields the
empty tool list instead. -/
theorem claim_C1_tool_selection (e response : String) :
    determineRequiredTools (Except.error e) = [Json.str "profile", Json.str "search"]
    ∧ (jsonParse (jsTrim response) = none →
        determineRequiredTools (Except.ok response) = [Json.str "profile", Json.str "search"])
    ∧ (∀ v : Json, jsonParse (jsTrim response) = some v → v.isArr = false →
        determineRequiredTools (Except.ok response) = []) := by
  refine ⟨rfl, ?_, ?_⟩
  · intro h
    simp only [determineRequiredTools, h]
  · intro v hv hna
    simp only [determineRequiredTools, hv]
    cases v <;> first | rfl | simp [Json.isArr] at hna

theorem claim_C1_witness :
    jsonParse (jsTrim "5") = some (Json.num "5")
    ∧ Json.isArr (Json.num "5") = false
    ∧ determineRequiredTools (Except.error "completion failure")
        = [Json.str "profile", Json.str "search"]
    ∧ determineRequiredTools (Except.ok "5") = [] :=
  ⟨rfl, rfl, (claim_C1_tool_selection "completion failure" "5").1,
    (claim_C1_tool_selection "completion failure" "5").2.2 (Json.num "5") rfl rfl⟩

/-! ### Parameter extraction fallbacks (C5, C6) -/

/-- C6. Empty or whitespace-only input short-circuits parameter extraction
to the fixed general parameters, and the completion service is not called
(remoteCalled is false, and the result does not depend on the extraction
outcome at all). -/
theorem claim_C6_empty_input (extraction : Except String String) (msg : String)
    (h : jsTrim msg = "") :
    generateSearchParams extraction msg =
      { params := Json.obj [("query", Json.str "general search"), ("category", Json.str "general")]
        remoteCalled := false } := by
  unfold generateSearchParams
  rw [h]
  rw [if_pos rfl]

theorem claim_C6_witness :
    jsTrim "   " = ""
    ∧ generateSearchParams (Except.error "completion down") "   " =
      { params := Json.obj [("query", Json.str "general search"), ("category", Json.str "general")]
        remoteCalled := false } :=
  ⟨rfl, claim_C6_empty_input (Except.error "completion down") "   " rfl⟩

/-- C5. When the extraction attempt does not produce parameters with a valid
non-empty query (completion failure, parse failure, or missing query) and the
input text is non-empty, the heuristic extractor returns the trimmed raw
message as the query and picks the category by case-insensitive substring
cues in the fixed priority order hotels, flights, restaurants, products,
general — first matching group wins. -/
theorem claim_C5_heuristic_extraction (extraction : Except String String) (msg : String)
    (hmsg : jsTrim msg ≠ "")
    (hfail : ∀ p : Json, paramsAttempt extraction ≠ Except.ok p) :
    (generateSearchParams extraction msg).params =
      Json.obj [("query", Json.str (jsTrim msg)),
        ("category", Json.str (
          if jsIncludes (jsToLower (jsTrim msg)) "hotel"
              || jsIncludes (jsToLower (jsTrim msg)) "stay" then "hotels"
          else if jsIncludes (jsToLower (jsTrim msg)) "flight"
              || jsIncludes (jsToLower (jsTrim msg)) "fly" then "flights"
          else if jsIncludes (jsToLower (jsTrim msg)) "restaurant"
              || jsIncludes (jsToLower (jsTrim msg)) "food"
              || jsIncludes (jsToLower (jsTrim msg)) "pizza"
              || jsIncludes (jsToLower (jsTrim msg)) "eat" then "restaurants"
          else if jsIncludes (jsToLower (jsTrim msg)) "buy"
              || jsIncludes (jsToLower (jsTrim msg)) "shop"
              || jsIncludes (jsToLower (jsTrim msg)) "product" then "products"
          else "general"))] := by
  unfold generateSearchParams
  rw [if_neg hmsg]
  cases hp : paramsAttempt extraction with
  | ok p => exact absurd hp (hfail p)
  | error e => rfl

theorem claim_C5_witness :
    jsTrim " I want Italian food in Nairobi " ≠ ""
    ∧ (generateSearchParams (Except.error "completion down")
        " I want Italian food in Nairobi ").params
      = Json.obj [("query", Json.str "I want Italian food in Nairobi"),
          ("category", Json.str "restaurants")] :=
  ⟨by decide, claim_C5_heuristic_extraction (Except.error "completion down")
      " I want Italian food in Nairobi " (by decide) (fun _ hp => nomatch hp)⟩

/-! ### Lemmas about Json key comparison and the result map -/

theorem string_append_ne_empty (s t : String) (h : s ≠ "") : s ++ t ≠ "" := by
  intro he
  apply h
  have hd := congrArg String.data he
  simp only [String.data_append] at hd
  have hs : s.data = [] := (List.append_eq_nil.mp hd).1
  cases s
  simp_all

theorem eq_str_of_beq (v : Json) (s : String) (h : Json.beq v (Json.str s) = true) :
    v = Json.str s := by
  cases v <;> simp_all [Json.beq]

theorem beq_str_symm (s : String) (u : Json) :
    Json.beq (Json.str s) u = Json.beq u (Json.str s) := by
  cases u <;> try rfl
  rename_i t
  show (s == t) = (t == s)
  by_cases h : s = t
  · subst h
    rfl
  · have h1 : (s == t) = false := beq_eq_false_iff_ne.mpr h
    have h2 : (t == s) = false := beq_eq_false_iff_ne.mpr (Ne.symm h)
    rw [h1, h2]

theorem mapGet_nil (k : Json) : mapGet [] k = none := rfl

theorem mapGet_mapSet_str_same (m : ResultsMap) (s : String) (v : ToolEntry) :
    mapGet (mapSet m (Json.str s) v) (Json.str s) = some v := by
  induction m with
  | nil =>
    unfold mapGet mapSet
    rw [List.find?_cons_of_pos _ (by simp [Json.beq])]
    rfl
  | cons p rest ih =>
    obtain ⟨k', v'⟩ := p
    by_cases hb : Json.beq k' (Json.str s) = true
    · simp only [mapSet, if_pos hb]
      unfold mapGet
      rw [List.find?_cons_of_pos _ (by simpa using hb)]
      rfl
    · simp only [mapSet, if_neg hb]
      unfold mapGet at ih ⊢
      rw [List.find?_cons_of_neg _ (by simpa using hb)]
      exact ih

theorem mapGet_mapSet_str_other (m : ResultsMap) (s : String) (u : Json) (v : ToolEntry)
    (hne : Json.beq (Json.str s) u = false) :
    mapGet (mapSet m (Json.str s) v) u = mapGet m u := by
  induction m with
  | nil =>
    unfold mapGet mapSet
    rw [List.find?_cons_of_neg _ (by simpa using hne)]
  | cons p rest ih =>
    obtain ⟨k', v'⟩ := p
    by_cases hb : Json.beq k' (Json.str s) = true
    · have hk : k' = Json.str s := eq_str_of_beq k' s hb
      subst hk
      simp only [mapSet, if_pos hb]
      unfold mapGet
      rw [List.find?_cons_of_neg _ (by simpa using hne),
        List.find?_cons_of_neg _ (by simpa using hne)]
    · simp only [mapSet, if_neg hb]
      unfold mapGet at ih ⊢
      cases hku : Json.beq k' u with
      | true =>
        rw [List.find?_cons_of_pos _ (by simpa using hku),
          List.find?_cons_of_pos _ (by simpa using hku)]
      | false =>
        rw [List.find?_cons_of_neg _ (by simpa using hku),
          List.find?_cons_of_neg _ (by simpa using hku)]
        exact ih

/-! ### Every stored search failure carries a non-empty message and the
pre-written fallback -/

theorem wrapTavily_error_ne (raw : Except String Json) (e : String)
    (h : wrapTavily raw = Except.error e) : e ≠ "" := by
  cases raw with
  | ok body => exact absurd h (by simp [wrapTavily])
  | error m =>
    simp only [wrapTavily] at h
    cases h
    exact string_append_ne_empty "Tavily search error: " m (by decide)

theorem tavilySearch_error_ne (fetch : TavilyFetch) (request : TavilySearchRequest)
    (e : String) (h : tavilySearch fetch request = Except.error e) : e ≠ "" :=
  wrapTavily_error_ne _ e h

theorem searchHotels_error_ne (fetch : TavilyFetch) (location checkIn checkOut : Option Json)
    (e : String) (h : searchHotels fetch location checkIn checkOut = Except.error e) :
    e ≠ "" := by
  unfold searchHotels at h
  split at h
  · split at h
    · cases h
      decide
    · exact tavilySearch_error_ne _ _ _ h
  · cases h
    decide

theorem searchFlights_error_ne (fetch : TavilyFetch) (origin destination departureDate : Option Json)
    (e : String) (h : searchFlights fetch origin destination departureDate = Except.error e) :
    e ≠ "" := by
  unfold searchFlights at h
  split at h
  · split at h
    · cases h
      decide
    · split at h
      · split at h
        · cases h
          decide
        · exact tavilySearch_error_ne _ _ _ h
      · cases h
        decide
  · cases h
    decide

theorem cuisinePrefixResult_error_ne (cuisine : Option Json) (e : String)
    (h : cuisinePrefixResult cuisine = Except.error e) : e ≠ "" := by
  unfold cuisinePrefixResult at h
  split at h
  · exact absurd h (by simp)
  · split at h
    · cases h
      decide
    · exact absurd h (by simp)
  · exact absurd h (by simp)

theorem budgetSuffixResult_error_ne (budget : Option Json) (e : String)
    (h : budgetSuffixResult budget = Except.error e) : e ≠ "" := by
  unfold budgetSuffixResult at h
  split at h
  · exact absurd h (by simp)
  · split at h
    · cases h
      decide
    · exact absurd h (by simp)
  · exact absurd h (by simp)

theorem searchRestaurants_error_ne (fetch : TavilyFetch) (location cuisine : Option Json)
    (e : String) (h : searchRestaurants fetch location cuisine = Except.error e) :
    e ≠ "" := by
  unfold searchRestaurants at h
  split at h
  · split at h
    · cases h
      decide
    · split at h
      · rename_i heq
        cases h
        exact cuisinePrefixResult_error_ne cuisine _ heq
      · exact tavilySearch_error_ne _ _ _ h
  · cases h
    decide

theorem searchProducts_error_ne (fetch : TavilyFetch) (productName budget : Option Json)
    (e : String) (h : searchProducts fetch productName budget = Except.error e) :
    e ≠ "" := by
  unfold searchProducts at h
  split at h
  · split at h
    · cases h
      decide
    · split at h
      · rename_i heq
        cases h
        exact budgetSuffixResult_error_ne budget _ heq
      · exact tavilySearch_error_ne _ _ _ h
  · cases h
    decide

theorem executeSearchTool_error_ne (fetch : TavilyFetch) (params : Json) (e : String)
    (h : executeSearchTool fetch params = Except.error e) : e ≠ "" := by
  unfold executeSearchTool at h
  split at h
  · split at h
    · cases h
      decide
    · split at h
      · exact searchHotels_error_ne _ _ _ _ _ h
      · exact searchFlights_error_ne _ _ _ _ _ h
      · exact searchRestaurants_error_ne _ _ _ _ h
      · exact searchProducts_error_ne _ _ _ _ h
      · exact tavilySearch_error_ne _ _ _ h
  · cases h
    decide

/-! ### Degraded synthesis path (C4) -/

theorem searchEntryOk_nil : searchEntryOk [] := by
  intro e fb h
  simp [mapGet, List.find?] at h

theorem execOneTool_preserves_searchEntryOk (env : AgentEnv) (ctx : AgentContext)
    (m : ResultsMap) (t : Json) (h : searchEntryOk m) :
    searchEntryOk (execOneTool env ctx m t) := by
  unfold execOneTool
  by_cases hs : Json.beq t (Json.str "search") = true
  · rw [if_pos hs]
    cases hr : executeSearchTool env.fetch
        (generateSearchParams env.extraction ctx.userMessage).params with
    | ok body =>
      intro e fb hget
      rw [mapGet_mapSet_str_same] at hget
      exact absurd hget (by simp)
    | error er =>
      intro e fb hget
      rw [mapGet_mapSet_str_same] at hget
      injection hget with hg
      injection hg with hg1 hg2
      refine ⟨?_, hg2.symm⟩
      rw [← hg1]
      exact executeSearchTool_error_ne _ _ _ hr
  · rw [if_neg hs]
    by_cases hp : Json.beq t (Json.str "profile") = true
    · rw [if_pos hp]
      have hne : Json.beq (Json.str "profile") (Json.str "search") = false := by decide
      cases executeProfileTool env (Json.obj [("action", Json.str "get")]) with
      | ok v =>
        intro e fb hget
        rw [mapGet_mapSet_str_other _ _ _ _ hne] at hget
        exact h e fb hget
      | error er =>
        intro e fb hget
        rw [mapGet_mapSet_str_other _ _ _ _ hne] at hget
        exact h e fb hget
    · rw [if_neg hp]
      exact h

theorem executeToolsInSequence_searchEntryOk (env : AgentEnv) (ctx : AgentContext)
    (tools : List Json) : searchEntryOk (executeToolsInSequence env ctx tools) := by
  unfold executeToolsInSequence
  suffices h : ∀ m, searchEntryOk m → searchEntryOk (tools.foldl (execOneTool env ctx) m) from
    h [] searchEntryOk_nil
  induction tools with
  | nil => intro m hm; exact hm
  | cons t ts ih =>
    intro m hm
    exact ih _ (execOneTool_preserves_searchEntryOk env ctx m t hm)

theorem hasTruthySearchError_spec (m : ResultsMap) (h : hasTruthySearchError m = true) :
    ∃ e fb, mapGet m (Json.str "search") = some (ToolEntry.failure e fb)
      ∧ searchFallbackOf m = fb ∧ e ≠ "" := by
  unfold hasTruthySearchError at h
  unfold searchFallbackOf
  cases hg : mapGet m (Json.str "search") with
  | none => rw [hg] at h; exact absurd h (by simp)
  | some entry =>
    cases entry with
    | success v => rw [hg] at h; exact absurd h (by simp)
    | failure e fb =>
      rw [hg] at h
      exact ⟨e, fb, rfl, rfl, by simpa using h⟩

/-- C4. Over any tool-result map accumulated by executeToolsInSequence: the
degraded check of generateFinalResponse fires exactly when the search entry
carries an error field; in that case the reply is the pre-written
fallback message followed by the fixed menu text, with confidence exactly
0.3, and the outcome is the same for every synthesis environment — no
completion call influences it; otherwise synthesis proceeds normally. -/
theorem claim_C4_degraded_path (envA envB : AgentEnv) (ctxA ctxB : AgentContext)
    (tools : List Json) :
    (hasTruthySearchError (executeToolsInSequence envA ctxA tools) = true ↔
      ∃ e fb, mapGet (executeToolsInSequence envA ctxA tools) (Json.str "search")
        = some (ToolEntry.failure e fb))
    ∧ (hasTruthySearchError (executeToolsInSequence envA ctxA tools) = true →
        generateFinalResponse envB ctxB (executeToolsInSequence envA ctxA tools) =
          Except.ok
            { message := searchFallbackMessage ++ degradedMenuText
              toolsUsed := (executeToolsInSequence envA ctxA tools).map (fun p => p.1)
              confidence := 0.3 })
    ∧ (hasTruthySearchError (executeToolsInSequence envA ctxA tools) = false →
        generateFinalResponse envB ctxB (executeToolsInSequence envA ctxA tools) =
          normalSynthesis envB ctxB (executeToolsInSequence envA ctxA tools)) := by
  have hok := executeToolsInSequence_searchEntryOk envA ctxA tools
  refine ⟨?_, ?_, ?_⟩
  · constructor
    · intro htrue
      obtain ⟨e, fb, hg, _, _⟩ := hasTruthySearchError_spec _ htrue
      exact ⟨e, fb, hg⟩
    · rintro ⟨e, fb, hg⟩
      unfold hasTruthySearchError
      rw [hg]
      simp [(hok e fb hg).1]
  · intro htrue
    obtain ⟨e, fb, hg, hfb, _⟩ := hasTruthySearchError_spec _ htrue
    have hwf := hok e fb hg
    unfold generateFinalResponse
    rw [if_pos htrue]
    unfold degradedResponse
    rw [hfb, hwf.2]
    rfl
  · intro hfalse
    unfold generateFinalResponse
    rw [if_neg (by simp [hfalse])]

/-! ### Example environments shared by concrete witnesses -/

theorem claim_C4_witness :
    hasTruthySearchError
      (executeToolsInSequence exEnv exCtx [Json.str "profile", Json.str "search"]) = true
    ∧ generateFinalResponse exEnv exCtx
        (executeToolsInSequence exEnv exCtx [Json.str "profile", Json.str "search"])
      = Except.ok { message := searchFallbackMessage ++ degradedMenuText
                    toolsUsed := [Json.str "profile", Json.str "search"]
                    confidence := 0.3 } :=
  ⟨rfl, (claim_C4_degraded_path exEnv exEnv exCtx exCtx
      [Json.str "profile", Json.str "search"]).2.1 rfl⟩

/-! ### Unknown tool names are skipped (C8) -/

theorem execOneTool_unknown (env : AgentEnv) (ctx : AgentContext) (m : ResultsMap)
    (u : Json) (hu : toolRegistryHas u = false) : execOneTool env ctx m u = m := by
  have hu' := Bool.or_eq_false_iff.mp (by simpa [toolRegistryHas] using hu)
  unfold execOneTool
  rw [if_neg (by simp [hu'.1]), if_neg (by simp [hu'.2])]

theorem execOneTool_mapGet_unknown (env : AgentEnv) (ctx : AgentContext)
    (m : ResultsMap) (t u : Json)
    (hs : Json.beq (Json.str "search") u = false)
    (hp : Json.beq (Json.str "profile") u = false)
    (hm : mapGet m u = none) : mapGet (execOneTool env ctx m t) u = none := by
  unfold execOneTool
  by_cases h1 : Json.beq t (Json.str "search") = true
  · rw [if_pos h1]
    cases executeSearchTool env.fetch
        (generateSearchParams env.extraction ctx.userMessage).params with
    | ok body => rw [mapGet_mapSet_str_other _ _ _ _ hs]; exact hm
    | error e => rw [mapGet_mapSet_str_other _ _ _ _ hs]; exact hm
  · rw [if_neg h1]
    by_cases h2 : Json.beq t (Json.str "profile") = true
    · rw [if_pos h2]
      cases executeProfileTool env (Json.obj [("action", Json.str "get")]) with
      | ok v => rw [mapGet_mapSet_str_other _ _ _ _ hp]; exact hm
      | error e => rw [mapGet_mapSet_str_other _ _ _ _ hp]; exact hm
    · rw [if_neg h2]
      exact hm

theorem foldl_execOneTool_mapGet_unknown (env : AgentEnv) (ctx : AgentContext) (u : Json)
    (hs : Json.beq (Json.str "search") u = false)
    (hp : Json.beq (Json.str "profile") u = false) :
    ∀ (tools : List Json) (m : ResultsMap), mapGet m u = none →
      mapGet (tools.foldl (execOneTool env ctx) m) u = none := by
  intro tools
  induction tools with
  | nil => intro m hm; exact hm
  | cons t ts ih =>
    intro m hm
    exact ih _ (execOneTool_mapGet_unknown env ctx m t u hs hp hm)

/-- C8. A selected tool name absent from the registry is never fatal: the
loop skips it, execution continues with the remaining tools in order (the
accumulated map is exactly the one obtained without the unknown name), and
no entry for the unknown name ever appears in the result map. -/
theorem claim_C8_unknown_tool (env : AgentEnv) (ctx : AgentContext)
    (pre post : List Json) (u : Json) (hu : toolRegistryHas u = false) :
    executeToolsInSequence env ctx (pre ++ u :: post)
      = executeToolsInSequence env ctx (pre ++ post)
    ∧ mapGet (executeToolsInSequence env ctx (pre ++ u :: post)) u = none := by
  have hu' := Bool.or_eq_false_iff.mp (by simpa [toolRegistryHas] using hu)
  have hs : Json.beq (Json.str "search") u = false := by rw [beq_str_symm]; exact hu'.1
  have hp : Json.beq (Json.str "profile") u = false := by rw [beq_str_symm]; exact hu'.2
  constructor
  · unfold executeToolsInSequence
    rw [List.foldl_append, List.foldl_append, List.foldl_cons,
      execOneTool_unknown env ctx _ u hu]
  · unfold executeToolsInSequence
    exact foldl_execOneTool_mapGet_unknown env ctx u hs hp _ [] rfl

theorem claim_C8_witness :
    toolRegistryHas (Json.str "weather") = false
    ∧ executeToolsInSequence exEnv exCtx
        [Json.str "profile", Json.str "weather", Json.str "search"]
      = executeToolsInSequence exEnv exCtx [Json.str "profile", Json.str "search"]
    ∧ mapGet (executeToolsInSequence exEnv exCtx
          [Json.str "profile", Json.str "weather", Json.str "search"])
        (Json.str "weather") = none :=
  ⟨rfl,
    (claim_C8_unknown_tool exEnv exCtx [Json.str "profile"] [Json.str "search"]
      (Json.str "weather") rfl).1,
    (claim_C8_unknown_tool exEnv exCtx [Json.str "profile"] [Json.str "search"]
      (Json.str "weather") rfl).2⟩

/-! ### Synthesis failure floor (C2) -/

/-- C2 (amended).  Inside generateFinalResponse the synthesis-call failure
floor behaves as specified: off the degraded path, a failed synthesis call
yields the fixed apology with confidence exactly 0.1 and an empty tools-used
list, with no retry, and that is the only generateFinalResponse outcome with
confidence 0.1.  However runAgentPrompt rebuilds the response returned to the
caller with toolsUsed set to the selected tool list, so the caller-visible
tools-used list is not empty in general. -/
theorem claim_C2_synthesis_floor (env : AgentEnv) (ctx : AgentContext) (results : ResultsMap) :
    (∀ s, env.getUserSummarySynth = Except.ok s →
      hasTruthySearchError results = false →
      ∀ e, env.synthesis = Except.error e →
      generateFinalResponse env ctx results =
        Except.ok { message := apologyMessage, toolsUsed := [], confidence := 0.1 })
    ∧ (∀ r, generateFinalResponse env ctx results = Except.ok r → r.confidence = 0.1 →
        r.message = apologyMessage ∧ r.toolsUsed = []
          ∧ (∃ e, env.synthesis = Except.error e) ∧ hasTruthySearchError results = false)
    ∧ (∀ (env2 : AgentEnv) (msg uid : String) (r : AgentResponse),
        runAgentPrompt env2 msg uid = Except.ok r →
        r.toolsUsed = determineRequiredTools env2.selection) := by
  refine ⟨?_, ?_, ?_⟩
  · intro s hs hdeg e he
    unfold generateFinalResponse
    rw [if_neg (by simp [hdeg])]
    unfold normalSynthesis
    by_cases hup : jsTruthyOpt ctx.userProfile = true
    · rw [if_pos hup, hs, he]
    · rw [if_neg hup, he]
  · intro r hr hconf
    cases hbv : hasTruthySearchError results with
    | true =>
      unfold generateFinalResponse at hr
      rw [if_pos hbv] at hr
      injection hr with hr'
      rw [← hr'] at hconf
      exact absurd hconf (by norm_num [degradedResponse])
    | false =>
      unfold generateFinalResponse at hr
      rw [if_neg (by simp [hbv])] at hr
      unfold normalSynthesis at hr
      cases hq : (if jsTruthyOpt ctx.userProfile = true then env.getUserSummarySynth
          else Except.ok "New user") with
      | error s0 =>
        rw [hq] at hr
        simp at hr
      | ok s0 =>
        rw [hq] at hr
        cases hsyn : env.synthesis with
        | ok resp =>
          rw [hsyn] at hr
          injection hr with hr'
          rw [← hr'] at hconf
          exact absurd hconf (by norm_num)
        | error e0 =>
          rw [hsyn] at hr
          injection hr with hr'
          subst hr'
          exact ⟨rfl, rfl, ⟨e0, rfl⟩, rfl⟩
  · intro env2 msg uid r hr
    unfold runAgentPrompt at hr
    cases h1 : env2.getConversationContext with
    | error e1 => rw [h1] at hr; simp at hr
    | ok cc =>
      rw [h1] at hr
      simp only [] at hr
      cases h2 : env2.getProfile with
      | error e2 => rw [h2] at hr; simp at hr
      | ok prof =>
        rw [h2] at hr
        simp only [] at hr
        cases h3 : generateFinalResponse env2
            { userId := uid, userMessage := msg, conversationHistory := some cc,
              userProfile := some prof }
            (executeToolsInSequence env2
              { userId := uid, userMessage := msg, conversationHistory := some cc,
                userProfile := some prof }
              (determineRequiredTools env2.selection)) with
        | error e3 => rw [h3] at hr; simp at hr
        | ok fr =>
          rw [h3] at hr
          simp only [] at hr
          cases h4 : env2.addConversationEntry with
          | error e4 => rw [h4] at hr; simp at hr
          | ok u0 =>
            rw [h4] at hr
            simp only [] at hr
            injection hr with hr'
            rw [← hr']

/-- C2 (counterexample).  With tool selection failing over to the default
list, the search tool succeeding, and the synthesis call failing, the
response runAgentPrompt hands to the caller carries the apology and
confidence 0.1 but a NON-empty tools-used list — the selected tools — because
runAgentPrompt overwrites the toolsUsed of the synthesis floor. -/
theorem claim_C2_counterexample :
    runAgentPrompt envSearchOk "hello there" "254700000001"
      = Except.ok { message := apologyMessage
                    toolsUsed := [Json.str "profile", Json.str "search"]
                    confidence := jsOrRat 0.1 0.8 }
    ∧ jsOrRat (0.1 : ℚ) 0.8 = 0.1
    ∧ [Json.str "profile", Json.str "search"] ≠ ([] : List Json) :=
  ⟨rfl, by norm_num [jsOrRat], by simp⟩

theorem claim_C2_witness :
    envSearchOk.getUserSummarySynth = Except.ok "No user information available."
    ∧ hasTruthySearchError
        (executeToolsInSequence envSearchOk ctxHello
          [Json.str "profile", Json.str "search"]) = false
    ∧ envSearchOk.synthesis = Except.error "completion service unavailable"
    ∧ generateFinalResponse envSearchOk ctxHello
        (executeToolsInSequence envSearchOk ctxHello [Json.str "profile", Json.str "search"])
      = Except.ok { message := apologyMessage, toolsUsed := [], confidence := 0.1 } :=
  ⟨rfl, rfl, rfl,
    (claim_C2_synthesis_floor envSearchOk ctxHello
        (executeToolsInSequence envSearchOk ctxHello [Json.str "profile", Json.str "search"])).1
      "No user information available." rfl rfl "completion service unavailable" rfl⟩

/-! ### Only profile-store failures escape runAgentPrompt (C9) -/

theorem normalSynthesis_ok (env : AgentEnv) (ctx : AgentContext) (toolResults : ResultsMap)
    (s : String) (hs : env.getUserSummarySynth = Except.ok s) :
    ∃ r, normalSynthesis env ctx toolResults = Except.ok r := by
  unfold normalSynthesis
  by_cases hup : jsTruthyOpt ctx.userProfile = true
  · rw [if_pos hup, hs]
    cases env.synthesis with
    | ok resp => exact ⟨_, rfl⟩
    | error e => exact ⟨_, rfl⟩
  · rw [if_neg hup]
    cases env.synthesis with
    | ok resp => exact ⟨_, rfl⟩
    | error e => exact ⟨_, rfl⟩

theorem generateFinalResponse_ok (env : AgentEnv) (ctx : AgentContext)
    (toolResults : ResultsMap) (s : String) (hs : env.getUserSummarySynth = Except.ok s) :
    ∃ r, generateFinalResponse env ctx toolResults = Except.ok r := by
  unfold generateFinalResponse
  by_cases hdeg : hasTruthySearchError toolResults = true
  · rw [if_pos hdeg]
    exact ⟨_, rfl⟩
  · rw [if_neg hdeg]
    exact normalSynthesis_ok env ctx toolResults s hs

/-- C9. If the four profile-store operations runAgentPrompt performs outside
the tool executors succeed (conversation context, profile read, synthesis
prompt summary, history append), the request succeeds no matter what any
Completion Service or Search Service call returns: every remote failure is
converted to a fallback inside the request, and only profile-store failures
can escape runAgentPrompt as exceptions.  No call site is retried — each
remote outcome is consulted at most once. -/
theorem claim_C9_propagation (env : AgentEnv) (userMessage userId : String)
    (cc : String) (prof : Json) (s : String)
    (h1 : env.getConversationContext = Except.ok cc)
    (h2 : env.getProfile = Except.ok prof)
    (h3 : env.getUserSummarySynth = Except.ok s)
    (h4 : env.addConversationEntry = Except.ok ()) :
    ∃ r, runAgentPrompt env userMessage userId = Except.ok r := by
  unfold runAgentPrompt
  simp only [h1, h2]
  obtain ⟨fr, hfr⟩ := generateFinalResponse_ok env
    { userId := userId, userMessage := userMessage,
      conversationHistory := some cc, userProfile := some prof }
    (executeToolsInSequence env
      { userId := userId, userMessage := userMessage,
        conversationHistory := some cc, userProfile := some prof }
      (determineRequiredTools env.selection)) s h3
  simp only [hfr, h4]
  exact ⟨_, rfl⟩

theorem claim_C9_witness :
    isOkB (runAgentPrompt exEnv "find me pizza" "254700000000") = true := by
  obtain ⟨r, hr⟩ := claim_C9_propagation exEnv "find me pizza" "254700000000"
    "No previous conversation history." (Json.obj [("userId", Json.str "254700000000")])
    "No user information available." rfl rfl rfl rfl
  rw [hr]
  rfl

end Dukani
